import Mathlib

/-!
Shallow embedding of `designate/mdns/handler.py` (class `RequestHandler`).

The handler receives decoded DNS messages and produces DNS responses.
External collaborators (the storage backend, the remote SOA resolver, the
thread-group scheduler) are modelled as records of functions / as explicit
effect lists in the result, exactly at the boundary the source uses them.
Python exceptions are modelled with `Except PyErr`; an uncaught exception is
an `Except.error` escaping a function.
-/

namespace Designate

/-! dnspython numeric constants (dns.opcode, dns.rcode, dns.rdataclass,
dns.rdatatype), as used by the handler. -/

def opcodeQUERY : Nat := 0
def opcodeIQUERY : Nat := 1
def opcodeSTATUS : Nat := 2
def opcodeNOTIFY : Nat := 4
def opcodeUPDATE : Nat := 5

def rcodeNOERROR : Nat := 0
def rcodeFORMERR : Nat := 1
def rcodeREFUSED : Nat := 5
def rcodeNOTAUTH : Nat := 9

def rdataclassIN : Nat := 1

def rdatatypeA : Nat := 1
def rdatatypeSOA : Nat := 6
def rdatatypeIXFR : Nat := 251
def rdatatypeAXFR : Nat := 252

/-- dns.rdatatype.to_text: textual name of a record type, with the
"TYPE<number>" fallback for unknown values. -/
def rdatatypeToText (n : Nat) : String :=
  if n = 1 then "A"
  else if n = 2 then "NS"
  else if n = 5 then "CNAME"
  else if n = 6 then "SOA"
  else if n = 12 then "PTR"
  else if n = 15 then "MX"
  else if n = 16 then "TXT"
  else if n = 28 then "AAAA"
  else "TYPE" ++ toString n

/-! Data model. -/

/-- A resolved TSIG key, as placed in `request.environ['tsigkey']`. -/
structure TsigKey where
  scope : String
  resource_id : String
deriving DecidableEq

/-- One entry of the question section: name (as text), rdclass, rdtype. -/
structure Question where
  name : String
  rdclass : Nat
  rdtype : Nat
deriving DecidableEq

/-- A decoded DNS request. `tsigkey` is `request.environ['tsigkey']` and
`addr` is `request.environ['addr'][0]`, the sender address. -/
structure Request where
  opcode : Nat
  question : List Question
  tsigkey : Option TsigKey
  addr : String
deriving DecidableEq

/-- A stored Record: textual data plus the lifecycle action tag
(the value `"DELETE"` marks it logically deleted). -/
structure Record where
  action : String
  data : String
deriving DecidableEq

/-- A stored RecordSet. `ttl` is nullable (Python `None` = `none`). -/
structure RecordSet where
  name : String
  type : String
  ttl : Option Nat
  domain_id : String
  records : List Record
deriving DecidableEq

/-- A stored zone ("domain"): id, name, serial, default TTL and the
registered master addresses (meaningful for SECONDARY zones). -/
structure Domain where
  id : String
  name : String
  serial : Nat
  ttl : Nat
  masters : List String
deriving DecidableEq

/-- The criterion dict passed to storage lookups; every key the handler
ever sets is one optional field (absent key = `none`). -/
structure Criterion where
  name : Option String := none
  type : Option String := none
  deleted : Option Bool := none
  domains_deleted : Option Bool := none
  domain_id : Option String := none
  pool_id : Option String := none
  id : Option String := none
deriving DecidableEq

/-- A dnspython RRset as built by `dns.rrset.from_text_list(name, ttl,
rdclass, rdtype, rdata)`. -/
structure RRSet where
  name : String
  ttl : Nat
  rdclass : Nat
  rdtype : String
  rdata : List String
deriving DecidableEq

/-- A DNS response: rcode, the AA flag, and the answer section. The answer
section is a Python list whose elements may be `None` (the record-query
path can store a `None` projection), hence `List (Option RRSet)`. -/
structure Response where
  rcode : Nat
  flagsAA : Bool
  answer : List (Option RRSet)
deriving DecidableEq

/-- The Python exceptions that can cross the function boundaries of the
handler. `DomainNotFound` and `RecordSetNotFound` are subclasses of
designate's `NotFound`. -/
inductive PyErr where
  | DomainNotFound
  | RecordSetNotFound
  | Forbidden
  | NotImplementedError
  | ResolverError
deriving DecidableEq

/-- Membership in designate's `exceptions.NotFound` class hierarchy. -/
def PyErr.isNotFound : PyErr → Bool
  | .DomainNotFound => true
  | .RecordSetNotFound => true
  | _ => false

/-! Collaborators (external to this component, consumed abstractly). -/

/-- The storage collaborator: lookups by criterion. `find_domain` fails
with `DomainNotFound`, `find_recordset` with `RecordSetNotFound`;
`find_recordsets` returns the (possibly empty) list of matches. -/
structure Storage where
  find_domain : Criterion → Except PyErr Domain
  find_recordset : Criterion → Except PyErr RecordSet
  find_recordsets : Criterion → List RecordSet

/-- The live remote SOA lookup made during NOTIFY handling:
`querySOA nameserver zoneName` returns the remote serial or fails. -/
structure Resolver where
  querySOA : String → String → Except PyErr Nat

/-- Process-wide configuration read by the handler:
`CONF['service:mdns'].query_enforce_tsig` and
`CONF['service:central'].default_pool_id`. -/
structure Config where
  query_enforce_tsig : Bool
  default_pool_id : String

/-! Python truthiness helpers, used where the source tests a value with
`if x:` rather than `if x is not None:`. -/

/-- Python truthiness of a nullable integer: `None` and `0` are falsy. -/
def truthyOptNat : Option Nat → Bool
  | none => false
  | some n => n ≠ 0

/-- Modelled from the spec: `Domain.get_master_by_ip` is not under src/ (it
lives on the domain object); the spec says the zone carries a "set of registered master
addresses" and NOTIFY handling must "check whether the sender address is
among the zone's registered master addresses", the re-sync being scheduled
"with the notifying address". So it returns the registered master address
equal to the sender ip, or nothing. -/
def Domain.get_master_by_ip (d : Domain) (ip : String) : Option String :=
  d.masters.find? (fun m => m == ip)

/-- Model of `dns.message.make_response(request)`: fresh response, default rcode
NOERROR, no flags of interest set, empty answer section. -/
def make_response (_ : Request) : Response :=
  { rcode := rcodeNOERROR, flagsAA := false, answer := [] }

/-- Placeholder question used to model `request.question[0]` after the
length guard (never reached with a different length). -/
def defaultQuestion : Question :=
  { name := "", rdclass := 0, rdtype := 0 }

/-- Accessor for `request.question[0]`, the single question of the section. -/
def firstQuestion (request : Request) : Question :=
  request.question.headD defaultQuestion

/-- The observable outcome of one call: the response, the re-sync tasks
handed to the thread group (`tg.add_thread(domain_sync, context, domain,
[master_addr])`, recorded as the pair of its domain and master-list
arguments), and the remote SOA queries performed (nameserver, zone name). -/
structure HandlerOutcome where
  response : Response
  scheduled : List (Domain × List String)
  soa_queries : List (String × String)
deriving DecidableEq

namespace RequestHandler

/-- Model of `RequestHandler._handle_query_error`: response with the given rcode. -/
def handle_query_error (request : Request) (rcode : Nat) : Response :=
  { make_response request with rcode := rcode }

/-- Model of `RequestHandler._domain_criterion_from_request`: extends the base
criterion according to the TSIG key and policy. -/
def domain_criterion_from_request (conf : Config) (request : Request)
    (criterion : Criterion) : Except PyErr Criterion :=
  match request.tsigkey with
  | none =>
    if conf.query_enforce_tsig then
      .error .Forbidden
    else
      .ok { criterion with pool_id := some conf.default_pool_id }
  | some tsigkey =>
    if tsigkey.scope = "POOL" then
      .ok { criterion with pool_id := some tsigkey.resource_id }
    else if tsigkey.scope = "ZONE" then
      .ok { criterion with id := some tsigkey.resource_id }
    else
      .error .NotImplementedError

/-- Model of `RequestHandler._convert_to_rrset`: TTL fallback (`if recordset.ttl:`
is Python truthiness, so 0 also falls back), rdata gathered by the source's
append loop over the records whose action is not DELETE, and `None` when
the gathered rdata is empty. -/
def convert_to_rrset (domain : Domain) (recordset : RecordSet) : Option RRSet :=
  let ttl := if truthyOptNat recordset.ttl then recordset.ttl.getD 0 else domain.ttl
  let rdata := recordset.records.foldl
    (fun acc record => if record.action ≠ "DELETE" then acc ++ [record.data] else acc) []
  if rdata ≠ [] then
    some { name := recordset.name, ttl := ttl, rdclass := rdataclassIN,
           rdtype := recordset.type, rdata := rdata }
  else
    none

/-- Model of `RequestHandler._handle_axfr`. The try block covers criterion building
and the zone lookup, catching only `DomainNotFound` and `Forbidden`; any
other exception escapes. The SOA projections are appended unconditionally
(also at the end), the non-SOA projections only when truthy. -/
def handle_axfr (conf : Config) (storage : Storage) (request : Request) :
    Except PyErr Response :=
  let response := make_response request
  let q_rrset := firstQuestion request
  let attempt : Except PyErr Domain := do
    let criterion ← domain_criterion_from_request conf request { name := some q_rrset.name }
    storage.find_domain criterion
  match attempt with
  | .error .DomainNotFound => .ok (handle_query_error request rcodeREFUSED)
  | .error .Forbidden => .ok (handle_query_error request rcodeREFUSED)
  | .error e => .error e
  | .ok domain =>
    let soa_recordsets :=
      storage.find_recordsets { domain_id := some domain.id, type := some "SOA" }
    let soa_rrsets := soa_recordsets.map (fun recordset => convert_to_rrset domain recordset)
    let recordsets :=
      storage.find_recordsets { domain_id := some domain.id, type := some "!SOA" }
    let other_rrsets :=
      (recordsets.filterMap (fun recordset => convert_to_rrset domain recordset)).map some
    .ok { response with
          rcode := rcodeNOERROR,
          answer := soa_rrsets ++ other_rrsets ++ soa_rrsets,
          flagsAA := true }

/-- Model of `RequestHandler._handle_record_query`. Outer try catches `NotFound`
and `Forbidden`; the inner try around criterion building and the zone
lookup catches `DomainNotFound` and `Forbidden` and answers REFUSED. -/
def handle_record_query (conf : Config) (storage : Storage) (request : Request) :
    Except PyErr Response :=
  let response := make_response request
  let q_rrset := firstQuestion request
  let criterion : Criterion :=
    { name := some q_rrset.name, type := some (rdatatypeToText q_rrset.rdtype),
      domains_deleted := some false }
  let body : Except PyErr Response :=
    match storage.find_recordset criterion with
    | .error e => .error e
    | .ok recordset =>
      let attempt : Except PyErr Domain := do
        let criterion2 ← domain_criterion_from_request conf request
          { id := some recordset.domain_id }
        storage.find_domain criterion2
      match attempt with
      | .error .DomainNotFound => .ok (handle_query_error request rcodeREFUSED)
      | .error .Forbidden => .ok (handle_query_error request rcodeREFUSED)
      | .error e => .error e
      | .ok domain =>
        let r_rrset := convert_to_rrset domain recordset
        .ok { response with rcode := rcodeNOERROR, answer := [r_rrset], flagsAA := true }
  match body with
  | .error e =>
    if e.isNotFound then .ok { response with rcode := rcodeREFUSED }
    else if e = .Forbidden then .ok { response with rcode := rcodeREFUSED }
    else .error e
  | .ok r => .ok r

/-- Model of `RequestHandler._handle_notify`. `if not master_addr:` is Python
truthiness on the string returned by `get_master_by_ip` (absent or empty
is falsy). The resolver query is uncaught: its failure escapes. -/
def handle_notify (storage : Storage) (resolver : Resolver) (request : Request) :
    Except PyErr HandlerOutcome :=
  let response := make_response request
  if request.question.length ≠ 1 then
    .ok ⟨{ response with rcode := rcodeFORMERR }, [], []⟩
  else
    let question := firstQuestion request
    let criterion : Criterion :=
      { name := some question.name, type := some "SECONDARY", deleted := some false }
    match storage.find_domain criterion with
    | .error .DomainNotFound => .ok ⟨{ response with rcode := rcodeNOTAUTH }, [], []⟩
    | .error e => .error e
    | .ok domain =>
      let notify_addr := request.addr
      match domain.get_master_by_ip notify_addr with
      | none => .ok ⟨{ response with rcode := rcodeREFUSED }, [], []⟩
      | some master_addr =>
        if master_addr = "" then
          .ok ⟨{ response with rcode := rcodeREFUSED }, [], []⟩
        else
          match resolver.querySOA notify_addr domain.name with
          | .error e => .error e
          | .ok soa_serial =>
            if soa_serial = domain.serial then
              .ok ⟨{ response with flagsAA := true }, [], [(notify_addr, domain.name)]⟩
            else
              .ok ⟨{ response with flagsAA := true },
                   [(domain, [master_addr])], [(notify_addr, domain.name)]⟩

/-- Model of `RequestHandler.__call__`: dispatch on opcode and question. The pure
query paths schedule nothing and query no remote SOA. -/
def call (conf : Config) (storage : Storage) (resolver : Resolver) (request : Request) :
    Except PyErr HandlerOutcome :=
  if request.opcode = opcodeQUERY then
    if request.question.length ≠ 1 ∨
        (firstQuestion request).rdclass ≠ rdataclassIN then
      .ok ⟨handle_query_error request rcodeREFUSED, [], []⟩
    else
      if (firstQuestion request).rdtype = rdatatypeAXFR ∨
          (firstQuestion request).rdtype = rdatatypeIXFR then
        (handle_axfr conf storage request).map (fun r => ⟨r, [], []⟩)
      else
        (handle_record_query conf storage request).map (fun r => ⟨r, [], []⟩)
  else if request.opcode = opcodeNOTIFY then
    handle_notify storage resolver request
  else
    .ok ⟨handle_query_error request rcodeREFUSED, [], []⟩

end RequestHandler

/-! Concrete fixtures used by witnesses and counterexamples. -/

/-- Configuration with TSIG enforcement off and a default pool id. -/
def conf0 : Config := { query_enforce_tsig := false, default_pool_id := "pool-1" }

/-- A stored zone with one registered master. -/
def zone0 : Domain :=
  { id := "zone-1", name := "example.com.", serial := 100, ttl := 3600,
    masters := ["192.0.2.1"] }

/-- The SOA record-set of `zone0`, with a null TTL. -/
def soaRS : RecordSet :=
  { name := "example.com.", type := "SOA", ttl := none, domain_id := "zone-1",
    records := [{ action := "NONE", data := "ns1.example.com. admin.example.com. 100" }] }

/-- The projection of `soaRS` over `zone0`. -/
def soaRR0 : RRSet :=
  { name := "example.com.", ttl := 3600, rdclass := rdataclassIN, rdtype := "SOA",
    rdata := ["ns1.example.com. admin.example.com. 100"] }

/-- Storage holding `zone0` whose only record-set is its SOA. -/
def axfrStorage : Storage :=
  { find_domain := fun _ => .ok zone0
    find_recordset := fun _ => .error .RecordSetNotFound
    find_recordsets := fun c => if c.type = some "SOA" then [soaRS] else [] }

/-- An unsigned AXFR request for `example.com.`. -/
def reqAXFR : Request :=
  { opcode := opcodeQUERY,
    question := [{ name := "example.com.", rdclass := rdataclassIN, rdtype := rdatatypeAXFR }],
    tsigkey := none, addr := "203.0.113.5" }

/-- A NOTIFY for `example.com.` sent from `zone0`'s registered master. -/
def notifyReq : Request :=
  { opcode := opcodeNOTIFY,
    question := [{ name := "example.com.", rdclass := rdataclassIN, rdtype := rdatatypeSOA }],
    tsigkey := none, addr := "192.0.2.1" }

/-- A resolver answering every SOA query with serial 100 (equal to
`zone0.serial`). -/
def okResolver : Resolver := { querySOA := fun _ _ => .ok 100 }

/-- A resolver answering every SOA query with serial 101 (different from
`zone0.serial`). -/
def diffResolver : Resolver := { querySOA := fun _ _ => .ok 101 }

/-- A resolver whose every query fails. -/
def failingResolver : Resolver := { querySOA := fun _ _ => .error .ResolverError }

/-! Helper lemmas. -/

/-- Bind on a successful Except computation. -/
theorem except_ok_bind {ε α β : Type} (a : α) (f : α → Except ε β) :
    ((Except.ok a : Except ε α) >>= f) = f a := rfl

/-- Bind on a failed Except computation. -/
theorem except_error_bind {ε α β : Type} (e : ε) (f : α → Except ε β) :
    ((Except.error e : Except ε α) >>= f) = .error e := rfl

/-- Whether an Except computation succeeded. -/
def exceptIsOk {ε α : Type} : Except ε α → Bool
  | .ok _ => true
  | .error _ => false

/-- A succeeding Except computation has a result. -/
theorem exists_ok_of_isOk {ε α : Type} {x : Except ε α} (h : exceptIsOk x = true) :
    ∃ a, x = .ok a := by
  cases x with
  | ok a => exact ⟨a, rfl⟩
  | error e => simp [exceptIsOk] at h

/-- The rdata-gathering loop of `_convert_to_rrset` is the ordered data of
the non-deleted records. -/
theorem gather_rdata_eq (l : List Record) (acc : List String) :
    l.foldl (fun acc record => if record.action ≠ "DELETE" then acc ++ [record.data] else acc) acc
      = acc ++ (l.filter (fun record => record.action ≠ "DELETE")).map
          (fun record => record.data) := by
  induction l generalizing acc with
  | nil => simp
  | cons r l ih =>
    rw [List.foldl_cons, ih]
    by_cases h : r.action = "DELETE"
    · rw [if_neg (by simp [h]), List.filter_cons_of_neg (by simp [h])]
    · rw [if_pos (by simp [h]), List.filter_cons_of_pos (by simp [h]), List.map_cons]
      simp

/-! Claim theorems. -/

/-- C6: TSIG criterion policy of `_domain_criterion_from_request`: (a) no
key and enforcement on fails with Forbidden (the authorization-denied
error); (b) no key and enforcement off scopes the criterion to the default
pool id; (c) a POOL-scoped key scopes it to the key's resource id as pool
id; (d) a ZONE-scoped key scopes it to the key's resource id as zone id;
in the non-failing cases all other entries of the base criterion are
returned unchanged (the result is the base criterion updated in exactly
that one field). -/
theorem C6_criterion_policy (conf : Config) (request : Request) (criterion : Criterion) :
    (request.tsigkey = none → conf.query_enforce_tsig = true →
      RequestHandler.domain_criterion_from_request conf request criterion =
        .error .Forbidden)
  ∧ (request.tsigkey = none → conf.query_enforce_tsig = false →
      RequestHandler.domain_criterion_from_request conf request criterion =
        .ok { criterion with pool_id := some conf.default_pool_id })
  ∧ (∀ k, request.tsigkey = some k → k.scope = "POOL" →
      RequestHandler.domain_criterion_from_request conf request criterion =
        .ok { criterion with pool_id := some k.resource_id })
  ∧ (∀ k, request.tsigkey = some k → k.scope = "ZONE" →
      RequestHandler.domain_criterion_from_request conf request criterion =
        .ok { criterion with id := some k.resource_id }) := by
  refine ⟨?_, ?_, ?_, ?_⟩ <;> intros <;>
    simp_all [RequestHandler.domain_criterion_from_request]

/-- C6 witness: the policy evaluated at concrete inputs, for a ZONE-scoped
key and for the unsigned/enforcement-off case. -/
theorem C6_criterion_policy_witness :
    RequestHandler.domain_criterion_from_request conf0
        { reqAXFR with tsigkey := some { scope := "ZONE", resource_id := "zone-9" } }
        { name := some "example.com." }
      = .ok { name := some "example.com.", id := some "zone-9" }
  ∧ RequestHandler.domain_criterion_from_request conf0 reqAXFR {}
      = .ok { pool_id := some "pool-1" } :=
  ⟨(C6_criterion_policy conf0
      { reqAXFR with tsigkey := some { scope := "ZONE", resource_id := "zone-9" } }
      { name := some "example.com." }).2.2.2
      { scope := "ZONE", resource_id := "zone-9" } rfl rfl,
   (C6_criterion_policy conf0 reqAXFR {}).2.1 rfl rfl⟩

/-- C8: projection of a record-set gathers the data of exactly the records
whose action is not the DELETE marker, in original order; if that gathered
list is empty nothing is emitted, otherwise a single resource-record-set
keyed by the record-set's name, type and class IN carrying exactly that
ordered data. -/
theorem C8_projection (domain : Domain) (recordset : RecordSet) :
    ((recordset.records.filter (fun record => record.action ≠ "DELETE")).map
        (fun record => record.data) = [] →
      RequestHandler.convert_to_rrset domain recordset = none)
  ∧ ((recordset.records.filter (fun record => record.action ≠ "DELETE")).map
        (fun record => record.data) ≠ [] →
      ∃ rr, RequestHandler.convert_to_rrset domain recordset = some rr ∧
        rr.name = recordset.name ∧ rr.rdtype = recordset.type ∧
        rr.rdclass = rdataclassIN ∧
        rr.rdata = (recordset.records.filter (fun record => record.action ≠ "DELETE")).map
          (fun record => record.data)) := by
  unfold RequestHandler.convert_to_rrset
  rw [gather_rdata_eq recordset.records [], List.nil_append]
  constructor
  · intro h
    rw [if_neg (fun hc => hc h)]
  · intro h
    rw [if_pos h]
    exact ⟨_, rfl, rfl, rfl, rfl, rfl⟩

/-- C8 witness: a record-set whose only record is pending deletion projects
to nothing; one with a live record projects to the full record-set. -/
theorem C8_projection_witness :
    RequestHandler.convert_to_rrset zone0
        { name := "gone.example.com.", type := "A", ttl := some 60,
          domain_id := "zone-1", records := [{ action := "DELETE", data := "192.0.2.7" }] }
      = none
  ∧ ∃ rr, RequestHandler.convert_to_rrset zone0 soaRS = some rr ∧
      rr.name = soaRS.name ∧ rr.rdtype = soaRS.type ∧ rr.rdclass = rdataclassIN ∧
      rr.rdata = (soaRS.records.filter (fun record => record.action ≠ "DELETE")).map
        (fun record => record.data) :=
  ⟨(C8_projection zone0
      { name := "gone.example.com.", type := "A", ttl := some 60,
        domain_id := "zone-1", records := [{ action := "DELETE", data := "192.0.2.7" }] }).1
      (by decide),
   (C8_projection zone0 soaRS).2 (by decide)⟩

/-- C5: the claim says a record-set whose TTL is explicitly 0 keeps TTL 0;
the source tests `if recordset.ttl:` (Python truthiness), so a TTL of 0
falls back to the zone TTL, while a non-zero TTL is kept and a null TTL
falls back — evaluated here at the failing input TTL = 0 (zone TTL 3600)
and at the two conforming inputs. -/
theorem C5_ttl_zero_behavior :
    RequestHandler.convert_to_rrset zone0
        { name := "www.example.com.", type := "A", ttl := some 0,
          domain_id := "zone-1", records := [{ action := "NONE", data := "192.0.2.10" }] }
      = some { name := "www.example.com.", ttl := 3600, rdclass := rdataclassIN,
               rdtype := "A", rdata := ["192.0.2.10"] }
  ∧ RequestHandler.convert_to_rrset zone0
        { name := "www.example.com.", type := "A", ttl := some 300,
          domain_id := "zone-1", records := [{ action := "NONE", data := "192.0.2.10" }] }
      = some { name := "www.example.com.", ttl := 300, rdclass := rdataclassIN,
               rdtype := "A", rdata := ["192.0.2.10"] }
  ∧ RequestHandler.convert_to_rrset zone0
        { name := "www.example.com.", type := "A", ttl := none,
          domain_id := "zone-1", records := [{ action := "NONE", data := "192.0.2.10" }] }
      = some { name := "www.example.com.", ttl := 3600, rdclass := rdataclassIN,
               rdtype := "A", rdata := ["192.0.2.10"] } := by
  refine ⟨?_, ?_, ?_⟩ <;> decide

/-- Storage holding `zone0` and no record-sets, for NOTIFY scenarios. -/
def notifyStorage : Storage :=
  { find_domain := fun _ => .ok zone0
    find_recordset := fun _ => .error .RecordSetNotFound
    find_recordsets := fun _ => [] }

/-- C2: AXFR framing — for an existing, authorized zone with one SOA
record-set projecting to `soa_rr` and any list of non-SOA record-sets, the
answer is exactly the projected SOA, then the non-empty non-SOA
projections in order, then the projected SOA again; its length is
N_projected + 2; the rcode is NOERROR and the authoritative-answer flag is
set (an empty zone yields SOA, SOA). -/
theorem C2_axfr_framing (conf : Config) (storage : Storage) (request : Request)
    (crit : Criterion) (domain : Domain) (soa_rs : RecordSet) (soa_rr : RRSet)
    (others : List RecordSet)
    (hcrit : RequestHandler.domain_criterion_from_request conf request
        { name := some (firstQuestion request).name } = .ok crit)
    (hdom : storage.find_domain crit = .ok domain)
    (hsoa : storage.find_recordsets { domain_id := some domain.id, type := some "SOA" }
        = [soa_rs])
    (hsoa_rr : RequestHandler.convert_to_rrset domain soa_rs = some soa_rr)
    (hothers : storage.find_recordsets { domain_id := some domain.id, type := some "!SOA" }
        = others) :
    ∃ resp, RequestHandler.handle_axfr conf storage request = .ok resp ∧
      resp.rcode = rcodeNOERROR ∧ resp.flagsAA = true ∧
      resp.answer = some soa_rr ::
        ((others.filterMap (fun rs => RequestHandler.convert_to_rrset domain rs)).map some
          ++ [some soa_rr]) ∧
      resp.answer.length
        = (others.filterMap (fun rs => RequestHandler.convert_to_rrset domain rs)).length
            + 2 := by
  refine ⟨{ rcode := rcodeNOERROR, flagsAA := true,
            answer := some soa_rr ::
              ((others.filterMap (fun rs => RequestHandler.convert_to_rrset domain rs)).map
                  some ++ [some soa_rr]) },
          ?_, rfl, rfl, rfl, by simp⟩
  simp [RequestHandler.handle_axfr, hcrit, except_ok_bind, hdom, hsoa, hothers,
    make_response, hsoa_rr]

/-- C2 witness: the empty zone `zone0` (no record-sets beyond SOA) yields
the two-element answer SOA, SOA with NOERROR and the AA flag. -/
theorem C2_axfr_framing_witness :
    ∃ resp, RequestHandler.handle_axfr conf0 axfrStorage reqAXFR = .ok resp ∧
      resp.rcode = rcodeNOERROR ∧ resp.flagsAA = true ∧
      resp.answer = some soaRR0 ::
        ((([] : List RecordSet).filterMap
            (fun rs => RequestHandler.convert_to_rrset zone0 rs)).map some
          ++ [some soaRR0]) ∧
      resp.answer.length
        = (([] : List RecordSet).filterMap
            (fun rs => RequestHandler.convert_to_rrset zone0 rs)).length + 2 :=
  C2_axfr_framing conf0 axfrStorage reqAXFR
    { name := some "example.com.", pool_id := some "pool-1" } zone0 soaRS soaRR0 []
    rfl rfl rfl (by decide) rfl

/-- C3: NOTIFY from a registered master — the remote serial is obtained by
querying the sender's SOA; equal serials schedule nothing, different
serials schedule exactly one re-sync passing the notifying master's
address; either way the response is NOERROR with the AA flag set. -/
theorem C3_notify_serial (storage : Storage) (resolver : Resolver) (request : Request)
    (domain : Domain) (master_addr : String) (remote_serial : Nat)
    (hq : request.question.length = 1)
    (hdom : storage.find_domain
        { name := some (firstQuestion request).name,
          type := some "SECONDARY", deleted := some false } = .ok domain)
    (hmaster : domain.get_master_by_ip request.addr = some master_addr)
    (hne : master_addr ≠ "")
    (hsoa : resolver.querySOA request.addr domain.name = .ok remote_serial) :
    ∃ out, RequestHandler.handle_notify storage resolver request = .ok out ∧
      out.response.rcode = rcodeNOERROR ∧ out.response.flagsAA = true ∧
      (remote_serial = domain.serial → out.scheduled = []) ∧
      (remote_serial ≠ domain.serial →
        out.scheduled = [(domain, [master_addr])]) := by
  by_cases hs : remote_serial = domain.serial
  · refine ⟨⟨{ rcode := rcodeNOERROR, flagsAA := true, answer := [] }, [],
        [(request.addr, domain.name)]⟩,
      ?_, rfl, rfl, fun _ => rfl, fun hd => absurd hs hd⟩
    simp [RequestHandler.handle_notify, hq, hdom, hmaster, hne, hsoa, hs, make_response]
  · refine ⟨⟨{ rcode := rcodeNOERROR, flagsAA := true, answer := [] },
        [(domain, [master_addr])], [(request.addr, domain.name)]⟩,
      ?_, rfl, rfl, fun he => absurd he hs, fun _ => rfl⟩
    simp [RequestHandler.handle_notify, hq, hdom, hmaster, hne, hsoa, hs, make_response]

/-- C3 witness: a NOTIFY from `zone0`'s master with remote serial 101
against local serial 100 schedules exactly one re-sync with the notifying
address. -/
theorem C3_notify_serial_witness :
    ∃ out, RequestHandler.handle_notify notifyStorage diffResolver notifyReq = .ok out ∧
      out.response.rcode = rcodeNOERROR ∧ out.response.flagsAA = true ∧
      ((101 : Nat) = zone0.serial → out.scheduled = []) ∧
      ((101 : Nat) ≠ zone0.serial →
        out.scheduled = [(zone0, ["192.0.2.1"])]) :=
  C3_notify_serial notifyStorage diffResolver notifyReq zone0 "192.0.2.1" 101
    rfl rfl (by decide) (by decide) rfl

/-- C7: NOTIFY whose sender is not among the zone's registered master
addresses — the response is REFUSED, no re-sync task is scheduled, and no
remote SOA query is performed. -/
theorem C7_notify_non_master (storage : Storage) (resolver : Resolver) (request : Request)
    (domain : Domain)
    (hq : request.question.length = 1)
    (hdom : storage.find_domain
        { name := some (firstQuestion request).name,
          type := some "SECONDARY", deleted := some false } = .ok domain)
    (hnot : request.addr ∉ domain.masters) :
    ∃ out, RequestHandler.handle_notify storage resolver request = .ok out ∧
      out.response.rcode = rcodeREFUSED ∧
      out.scheduled = [] ∧ out.soa_queries = [] := by
  have hmaster : domain.get_master_by_ip request.addr = none := by
    rw [Domain.get_master_by_ip, List.find?_eq_none]
    intro x hx hbeq
    exact hnot ((beq_iff_eq.mp hbeq) ▸ hx)
  refine ⟨⟨{ rcode := rcodeREFUSED, flagsAA := false, answer := [] }, [], []⟩,
    ?_, rfl, rfl, rfl⟩
  simp [RequestHandler.handle_notify, hq, hdom, hmaster, make_response]

/-- C7 witness: a NOTIFY for `example.com.` from an address that is not a
registered master of `zone0` is REFUSED with no scheduling and no remote
query. -/
theorem C7_notify_non_master_witness :
    ∃ out, RequestHandler.handle_notify notifyStorage failingResolver
        { notifyReq with addr := "198.51.100.9" } = .ok out ∧
      out.response.rcode = rcodeREFUSED ∧
      out.scheduled = [] ∧ out.soa_queries = [] :=
  C7_notify_non_master notifyStorage failingResolver
    { notifyReq with addr := "198.51.100.9" } zone0 rfl rfl (by decide)

/-- C9: dispatcher classification — a QUERY without exactly one IN question
is REFUSED; a single IN question of type AXFR or IXFR is delegated to the
zone-transfer responder (IXFR served by the same full-AXFR code path), any
other type to the record-query responder; any opcode other than QUERY and
NOTIFY is REFUSED. -/
theorem C9_dispatch (conf : Config) (storage : Storage) (resolver : Resolver)
    (request : Request) :
    (request.opcode = opcodeQUERY →
      (request.question.length ≠ 1 ∨ (firstQuestion request).rdclass ≠ rdataclassIN) →
      ∃ out, RequestHandler.call conf storage resolver request = .ok out ∧
        out.response.rcode = rcodeREFUSED ∧ out.scheduled = [] ∧ out.soa_queries = [])
  ∧ (request.opcode = opcodeQUERY → request.question.length = 1 →
      (firstQuestion request).rdclass = rdataclassIN →
      ((firstQuestion request).rdtype = rdatatypeAXFR ∨
        (firstQuestion request).rdtype = rdatatypeIXFR) →
      RequestHandler.call conf storage resolver request =
        (RequestHandler.handle_axfr conf storage request).map (fun r => ⟨r, [], []⟩))
  ∧ (request.opcode = opcodeQUERY → request.question.length = 1 →
      (firstQuestion request).rdclass = rdataclassIN →
      (firstQuestion request).rdtype ≠ rdatatypeAXFR →
      (firstQuestion request).rdtype ≠ rdatatypeIXFR →
      RequestHandler.call conf storage resolver request =
        (RequestHandler.handle_record_query conf storage request).map (fun r => ⟨r, [], []⟩))
  ∧ (request.opcode ≠ opcodeQUERY → request.opcode ≠ opcodeNOTIFY →
      ∃ out, RequestHandler.call conf storage resolver request = .ok out ∧
        out.response.rcode = rcodeREFUSED ∧ out.scheduled = [] ∧ out.soa_queries = []) := by
  refine ⟨?_, ?_, ?_, ?_⟩
  · intro hop hbad
    refine ⟨⟨{ rcode := rcodeREFUSED, flagsAA := false, answer := [] }, [], []⟩,
      ?_, rfl, rfl, rfl⟩
    unfold RequestHandler.call
    rw [if_pos hop, if_pos hbad]
    simp [RequestHandler.handle_query_error, make_response]
  · intro hop hlen hcls hx
    unfold RequestHandler.call
    rw [if_pos hop, if_neg (by simp [hlen, hcls]), if_pos hx]
  · intro hop hlen hcls hx1 hx2
    unfold RequestHandler.call
    rw [if_pos hop, if_neg (by simp [hlen, hcls]), if_neg (by simp [hx1, hx2])]
  · intro hop hnot
    refine ⟨⟨{ rcode := rcodeREFUSED, flagsAA := false, answer := [] }, [], []⟩,
      ?_, rfl, rfl, rfl⟩
    unfold RequestHandler.call
    rw [if_neg hop, if_neg hnot]
    simp [RequestHandler.handle_query_error, make_response]

/-- C9 witness: a STATUS-opcode request is REFUSED with no side effects. -/
theorem C9_dispatch_witness :
    ∃ out, RequestHandler.call conf0 notifyStorage okResolver
        { notifyReq with opcode := opcodeSTATUS } = .ok out ∧
      out.response.rcode = rcodeREFUSED ∧ out.scheduled = [] ∧ out.soa_queries = [] :=
  (C9_dispatch conf0 notifyStorage okResolver
    { notifyReq with opcode := opcodeSTATUS }).2.2.2 (by decide) (by decide)

/-- A second zone, authorized by the ZONE-scoped key `zone-2` and distinct
from the owner (`zone-1`) of `foreignRS`. -/
def zoneKey : Domain :=
  { id := "zone-2", name := "other.example.", serial := 7, ttl := 7200, masters := [] }

/-- An A record-set owned by `zone-1` with a null TTL. -/
def foreignRS : RecordSet :=
  { name := "www.example.com.", type := "A", ttl := none, domain_id := "zone-1",
    records := [{ action := "NONE", data := "192.0.2.10" }] }

/-- Storage holding `foreignRS` and resolving zone lookups only for the
key's zone id `zone-2`. -/
def crossZoneStorage : Storage :=
  { find_domain := fun c => if c.id = some "zone-2" then .ok zoneKey
      else .error .DomainNotFound
    find_recordset := fun _ => .ok foreignRS
    find_recordsets := fun _ => [] }

/-- An ordinary A QUERY signed with a ZONE-scoped key for `zone-2`. -/
def reqZoneKeyed : Request :=
  { opcode := opcodeQUERY,
    question := [{ name := "www.example.com.", rdclass := rdataclassIN,
                   rdtype := rdatatypeA }],
    tsigkey := some { scope := "ZONE", resource_id := "zone-2" },
    addr := "203.0.113.5" }

/-- C10: with a ZONE-scoped TSIG key, the record-query zone criterion's id
entry (initialised to the record-set's owning zone id) is overwritten with
the key's resource id, so the zone resolved is the key's zone; when that
zone exists but differs from the record-set's owner, the handler still
answers NOERROR with that record-set, the key's zone supplying the
fallback TTL. -/
theorem C10_zone_key_overrides (conf : Config) (storage : Storage) (request : Request)
    (key : TsigKey) (recordset : RecordSet) (domain : Domain)
    (hkey : request.tsigkey = some key)
    (hscope : key.scope = "ZONE")
    (hrs : storage.find_recordset
        { name := some (firstQuestion request).name,
          type := some (rdatatypeToText (firstQuestion request).rdtype),
          domains_deleted := some false } = .ok recordset)
    (hdom : storage.find_domain { id := some key.resource_id } = .ok domain)
    (hdiff : domain.id ≠ recordset.domain_id) :
    RequestHandler.domain_criterion_from_request conf request
        { id := some recordset.domain_id } = .ok { id := some key.resource_id }
  ∧ ∃ resp, RequestHandler.handle_record_query conf storage request = .ok resp ∧
      resp.rcode = rcodeNOERROR ∧ resp.flagsAA = true ∧
      resp.answer = [RequestHandler.convert_to_rrset domain recordset] ∧
      (recordset.ttl = none →
        ∀ rr, RequestHandler.convert_to_rrset domain recordset = some rr →
          rr.ttl = domain.ttl) := by
  have hbuild : RequestHandler.domain_criterion_from_request conf request
      { id := some recordset.domain_id } = .ok { id := some key.resource_id } := by
    simp [RequestHandler.domain_criterion_from_request, hkey, hscope]
  refine ⟨hbuild, ⟨{ rcode := rcodeNOERROR, flagsAA := true,
                     answer := [RequestHandler.convert_to_rrset domain recordset] },
                   ?_, rfl, rfl, rfl, ?_⟩⟩
  · simp [RequestHandler.handle_record_query, hrs, hbuild, except_ok_bind, hdom,
      make_response]
  · intro httl rr hrr
    rw [RequestHandler.convert_to_rrset] at hrr
    simp only [httl, truthyOptNat] at hrr
    split at hrr
    · cases hrr
      rfl
    · cases hrr

/-- C10 witness: the key's zone `zone-2` differs from `foreignRS`'s owner
`zone-1`; the query is still answered NOERROR with `foreignRS` projected
under `zone-2`'s TTL 7200. -/
theorem C10_zone_key_overrides_witness :
    RequestHandler.domain_criterion_from_request conf0 reqZoneKeyed
        { id := some "zone-1" } = .ok { id := some "zone-2" }
  ∧ ∃ resp, RequestHandler.handle_record_query conf0 crossZoneStorage reqZoneKeyed
        = .ok resp ∧
      resp.rcode = rcodeNOERROR ∧ resp.flagsAA = true ∧
      resp.answer = [RequestHandler.convert_to_rrset zoneKey foreignRS] ∧
      (foreignRS.ttl = none →
        ∀ rr, RequestHandler.convert_to_rrset zoneKey foreignRS = some rr →
          rr.ttl = zoneKey.ttl) :=
  C10_zone_key_overrides conf0 crossZoneStorage reqZoneKeyed
    { scope := "ZONE", resource_id := "zone-2" } foreignRS zoneKey
    rfl rfl rfl rfl (by decide)

/-- C4 counterexample: the claim says the AXFR responder maps the
unsupported-scope failure to a REFUSED response; on the code, an AXFR
request signed with a key of scope "USER" makes the responder return the
escaping NotImplementedError, not a Response. -/
theorem C4_counterexample :
    RequestHandler.handle_axfr conf0 axfrStorage
        { reqAXFR with tsigkey := some { scope := "USER", resource_id := "u-1" } }
      = .error .NotImplementedError := rfl

/-- C4 amended: criterion building fails with NotImplementedError for any
TSIG key scope other than POOL and ZONE, and neither the AXFR responder
nor the record-query responder (once a record-set was found) catches it —
the failure escapes both, rather than being mapped to REFUSED. -/
theorem C4_unsupported_scope_escapes (conf : Config) (storage : Storage)
    (request : Request) (key : TsigKey) (criterion : Criterion)
    (hkey : request.tsigkey = some key)
    (hp : key.scope ≠ "POOL") (hz : key.scope ≠ "ZONE") :
    RequestHandler.domain_criterion_from_request conf request criterion
        = .error .NotImplementedError
  ∧ RequestHandler.handle_axfr conf storage request = .error .NotImplementedError
  ∧ (∀ rs, storage.find_recordset
        { name := some (firstQuestion request).name,
          type := some (rdatatypeToText (firstQuestion request).rdtype),
          domains_deleted := some false } = .ok rs →
      RequestHandler.handle_record_query conf storage request
        = .error .NotImplementedError) := by
  have hbuild : ∀ c : Criterion,
      RequestHandler.domain_criterion_from_request conf request c
        = .error .NotImplementedError := by
    intro c
    simp [RequestHandler.domain_criterion_from_request, hkey, hp, hz]
  refine ⟨hbuild criterion, ?_, ?_⟩
  · simp [RequestHandler.handle_axfr, hbuild, except_error_bind]
  · intro rs hrs
    simp [RequestHandler.handle_record_query, hrs, hbuild, except_error_bind,
      PyErr.isNotFound]

/-- C4 amended witness: a "USER"-scoped key at concrete inputs — criterion
building fails and both responders let NotImplementedError escape. -/
theorem C4_unsupported_scope_escapes_witness :
    RequestHandler.domain_criterion_from_request conf0
        { reqZoneKeyed with tsigkey := some { scope := "USER", resource_id := "u-1" } } {}
      = .error .NotImplementedError
  ∧ RequestHandler.handle_axfr conf0 crossZoneStorage
        { reqZoneKeyed with tsigkey := some { scope := "USER", resource_id := "u-1" } }
      = .error .NotImplementedError
  ∧ RequestHandler.handle_record_query conf0 crossZoneStorage
        { reqZoneKeyed with tsigkey := some { scope := "USER", resource_id := "u-1" } }
      = .error .NotImplementedError := by
  have h := C4_unsupported_scope_escapes conf0 crossZoneStorage
    { reqZoneKeyed with tsigkey := some { scope := "USER", resource_id := "u-1" } }
    { scope := "USER", resource_id := "u-1" } {} rfl (by decide) (by decide)
  exact ⟨h.1, h.2.1, h.2.2 foreignRS rfl⟩

/-- Criterion building can only fail with Forbidden when every attached
TSIG key has scope POOL or ZONE. -/
theorem builder_errors_only_forbidden (conf : Config) (request : Request)
    (criterion : Criterion)
    (hkey : ∀ k, request.tsigkey = some k → k.scope = "POOL" ∨ k.scope = "ZONE") :
    ∀ e, RequestHandler.domain_criterion_from_request conf request criterion = .error e →
      e = .Forbidden := by
  intro e he
  unfold RequestHandler.domain_criterion_from_request at he
  cases hk : request.tsigkey with
  | none =>
    rw [hk] at he
    by_cases hc : conf.query_enforce_tsig
    · simp only [hc, if_true] at he
      exact (Except.error.inj he).symm
    · simp [hc] at he
  | some k =>
    rw [hk] at he
    rcases hkey k hk with hs | hs <;> simp [hs] at he

/-- The AXFR responder returns a Response whenever zone lookup fails only
with DomainNotFound and any TSIG key scope is POOL or ZONE. -/
theorem handle_axfr_ok (conf : Config) (storage : Storage) (request : Request)
    (hdom : ∀ c e, storage.find_domain c = .error e → e = .DomainNotFound)
    (hkey : ∀ k, request.tsigkey = some k → k.scope = "POOL" ∨ k.scope = "ZONE") :
    exceptIsOk (RequestHandler.handle_axfr conf storage request) = true := by
  cases hb : RequestHandler.domain_criterion_from_request conf request
      { name := some (firstQuestion request).name } with
  | error e =>
    have heq := builder_errors_only_forbidden conf request _ hkey e hb
    subst heq
    simp [RequestHandler.handle_axfr, hb, except_error_bind, exceptIsOk]
  | ok crit =>
    cases hd : storage.find_domain crit with
    | error e =>
      have heq := hdom crit e hd
      subst heq
      simp [RequestHandler.handle_axfr, hb, except_ok_bind, hd, exceptIsOk]
    | ok domain =>
      simp [RequestHandler.handle_axfr, hb, except_ok_bind, hd, exceptIsOk]

/-- The record-query responder returns a Response whenever storage fails
only with its not-found errors and any TSIG key scope is POOL or ZONE. -/
theorem handle_record_query_ok (conf : Config) (storage : Storage) (request : Request)
    (hdom : ∀ c e, storage.find_domain c = .error e → e = .DomainNotFound)
    (hrs : ∀ c e, storage.find_recordset c = .error e → e = .RecordSetNotFound)
    (hkey : ∀ k, request.tsigkey = some k → k.scope = "POOL" ∨ k.scope = "ZONE") :
    exceptIsOk (RequestHandler.handle_record_query conf storage request) = true := by
  cases hr : storage.find_recordset
      { name := some (firstQuestion request).name,
        type := some (rdatatypeToText (firstQuestion request).rdtype),
        domains_deleted := some false } with
  | error e =>
    have heq := hrs _ e hr
    subst heq
    simp [RequestHandler.handle_record_query, hr, PyErr.isNotFound, exceptIsOk]
  | ok recordset =>
    cases hb : RequestHandler.domain_criterion_from_request conf request
        { id := some recordset.domain_id } with
    | error e =>
      have heq := builder_errors_only_forbidden conf request _ hkey e hb
      subst heq
      simp [RequestHandler.handle_record_query, hr, hb, except_error_bind, exceptIsOk]
    | ok crit2 =>
      cases hd : storage.find_domain crit2 with
      | error e =>
        have heq := hdom crit2 e hd
        subst heq
        simp [RequestHandler.handle_record_query, hr, hb, except_ok_bind, hd, exceptIsOk]
      | ok domain =>
        simp [RequestHandler.handle_record_query, hr, hb, except_ok_bind, hd, exceptIsOk]

/-- The NOTIFY responder returns a Response whenever zone lookup fails only
with DomainNotFound and the remote SOA query succeeds. -/
theorem handle_notify_ok (storage : Storage) (resolver : Resolver) (request : Request)
    (hdom : ∀ c e, storage.find_domain c = .error e → e = .DomainNotFound)
    (hres : ∀ a n, ∃ s, resolver.querySOA a n = .ok s) :
    exceptIsOk (RequestHandler.handle_notify storage resolver request) = true := by
  by_cases hq : request.question.length ≠ 1
  · simp [RequestHandler.handle_notify, hq, exceptIsOk]
  · cases hd : storage.find_domain
        { name := some (firstQuestion request).name, type := some "SECONDARY",
          deleted := some false } with
    | error e =>
      have heq := hdom _ e hd
      subst heq
      simp [RequestHandler.handle_notify, hq, hd, exceptIsOk]
    | ok domain =>
      cases hm : domain.get_master_by_ip request.addr with
      | none =>
        simp [RequestHandler.handle_notify, hq, hd, hm, exceptIsOk]
      | some master_addr =>
        by_cases hme : master_addr = ""
        · simp [RequestHandler.handle_notify, hq, hd, hm, hme, exceptIsOk]
        · obtain ⟨s, hs⟩ := hres request.addr domain.name
          by_cases hser : s = domain.serial
          · simp [RequestHandler.handle_notify, hq, hd, hm, hme, hs, hser, exceptIsOk]
          · simp [RequestHandler.handle_notify, hq, hd, hm, hme, hs, hser, exceptIsOk]

/-- C1 counterexample: the claim says every failure path is translated into
an error rcode on the returned Response, including a failing remote SOA
query during NOTIFY handling; on the code, a NOTIFY from a registered
master whose SOA query fails makes the entry point raise (return an
escaping error, not a Response). -/
theorem C1_counterexample :
    RequestHandler.call conf0 notifyStorage failingResolver notifyReq
      = .error .ResolverError := rfl

/-- C1 amended: the entry point returns a Response for every request and
every collaborator outcome within the collaborators' declared failure
modes — zone lookup failing only with DomainNotFound, record-set lookup
only with RecordSetNotFound, every attached TSIG key scoped POOL or ZONE,
and the remote SOA query succeeding; outside these (an unsupported key
scope, a failing remote SOA query) the exception escapes the boundary. -/
theorem C1_totality_amended (conf : Config) (storage : Storage) (resolver : Resolver)
    (request : Request)
    (hdom : ∀ c e, storage.find_domain c = .error e → e = .DomainNotFound)
    (hrs : ∀ c e, storage.find_recordset c = .error e → e = .RecordSetNotFound)
    (hkey : ∀ k, request.tsigkey = some k → k.scope = "POOL" ∨ k.scope = "ZONE")
    (hres : ∀ a n, ∃ s, resolver.querySOA a n = .ok s) :
    ∃ out, RequestHandler.call conf storage resolver request = .ok out := by
  unfold RequestHandler.call
  by_cases hq : request.opcode = opcodeQUERY
  · rw [if_pos hq]
    by_cases hbad : request.question.length ≠ 1 ∨
        (firstQuestion request).rdclass ≠ rdataclassIN
    · rw [if_pos hbad]
      exact ⟨_, rfl⟩
    · rw [if_neg hbad]
      by_cases hx : (firstQuestion request).rdtype = rdatatypeAXFR ∨
          (firstQuestion request).rdtype = rdatatypeIXFR
      · rw [if_pos hx]
        obtain ⟨r, hr⟩ := exists_ok_of_isOk (handle_axfr_ok conf storage request hdom hkey)
        exact ⟨_, by rw [hr]; rfl⟩
      · rw [if_neg hx]
        obtain ⟨r, hr⟩ := exists_ok_of_isOk
          (handle_record_query_ok conf storage request hdom hrs hkey)
        exact ⟨_, by rw [hr]; rfl⟩
  · rw [if_neg hq]
    by_cases hn : request.opcode = opcodeNOTIFY
    · rw [if_pos hn]
      exact exists_ok_of_isOk (handle_notify_ok storage resolver request hdom hres)
    · rw [if_neg hn]
      exact ⟨_, rfl⟩

/-- C1 amended witness: concrete collaborators within their declared
failure modes — the entry point returns a Response. -/
theorem C1_totality_amended_witness :
    ∃ out, RequestHandler.call conf0 notifyStorage okResolver notifyReq = .ok out :=
  C1_totality_amended conf0 notifyStorage okResolver notifyReq
    (fun _ _ h => nomatch h)
    (fun _ e h => (Except.error.inj h).symm)
    (fun _ h => nomatch h)
    (fun _ _ => ⟨100, rfl⟩)

end Designate
